import Mathlib

/-!
Verification of the gorm `Store` core of goflexstore (`gorm/store/store.go`)
against its natural-language specification.

The Go code is shallowly embedded: every `Store` operation becomes a Lean
function that, given the outcome the storage engine would produce for the
query it issues (an oracle argument), returns both the operation's Go-level
result and the ordered list of storage calls the operation issued.  The
storage engine, the scope builder (`gorm/query`), the transaction scope
(`gorm/opscope`) and the converter package are external collaborators of
this file's source and are represented at their interface boundary.
-/

namespace GoFlexStore

/-- Errors surfaced by the underlying gorm engine.  `recordNotFound` is
gorm's distinguished "no matching row" signal (`gorm.ErrRecordNotFound`);
`other` stands for any other engine failure (constraint violation,
connectivity loss, timeout, cancellation), tagged by a code so that
distinct failures are distinguishable. -/
inductive GormErr where
  | recordNotFound
  | other (code : Nat)
deriving DecidableEq, Repr

/-- A Go `error` value as returned by the Store operations: either the
validation error built with `errors.New` in `Update`, or a storage error
passed through from the engine. -/
inductive Err where
  | validation (msg : String)
  | storage (e : GormErr)
deriving DecidableEq, Repr

/-- A query parameter (`query.Param`): declarative filter / sort /
pagination / preload instruction supplied by the caller. -/
inductive Param where
  | filter (field : String) (op : String) (value : Int)
  | sort (field : String) (desc : Bool)
  | limit (n : Int)
  | offset (n : Int)
  | preload (relation : String)
deriving DecidableEq, Repr

/-- One call issued by the Store to the storage engine, as enumerated at
the interface boundary: find-one / find-many / count (optionally capped) /
insert / batch insert / save / non-zero-field update, plus the
transaction-control calls (`beginTx`, `commitTx`, `rollbackTx`) that the
engine offers but the Store is claimed never to issue.  Every call carries
the connection it runs on. -/
inductive StorageCall (DTO Conn Scope : Type) where
  | first (conn : Conn) (scopes : List Scope)
  | find (conn : Conn) (scopes : List Scope)
  | count (conn : Conn) (scopes : List Scope) (cap : Option Nat)
  | insert (conn : Conn) (record : DTO)
  | insertBatch (conn : Conn) (batch : List DTO)
  | save (conn : Conn) (scopes : List Scope) (record : DTO)
  | updates (conn : Conn) (scopes : List Scope) (record : DTO)
  | beginTx (conn : Conn)
  | commitTx (conn : Conn)
  | rollbackTx (conn : Conn)
deriving DecidableEq, Repr

/-- Connection a storage call executes on. -/
def StorageCall.conn {DTO Conn Scope : Type} : StorageCall DTO Conn Scope → Conn
  | .first c _ => c
  | .find c _ => c
  | .count c _ _ => c
  | .insert c _ => c
  | .insertBatch c _ => c
  | .save c _ _ => c
  | .updates c _ _ => c
  | .beginTx c => c
  | .commitTx c => c
  | .rollbackTx c => c

/-- Whether a storage call opens, commits or closes a transaction. -/
def StorageCall.isTxControl {DTO Conn Scope : Type} : StorageCall DTO Conn Scope → Bool
  | .beginTx _ => true
  | .commitTx _ => true
  | .rollbackTx _ => true
  | _ => false

/-- Result of running one Store operation: the value returned to the Go
caller together with the ordered trace of storage calls the operation
issued. -/
structure Outcome (α : Type) (κ : Type) where
  result : α
  calls : List κ
deriving Repr

/-- Modelled from the spec: `converter.ToMany` (package `converter`, not
among the provided sources) converts a slice elementwise, preserving input
order and producing an empty (not missing) output for empty input. -/
def ToMany {α β : Type} (items : List α) (f : α → β) : List β :=
  items.map f

/-- Modelled from the spec: the helper `defaultValue` used by `CreateMany`
(not among the provided sources) — the batch size falls back to the
default whenever it is unset or non-positive. -/
def defaultValue (val default : Int) : Int :=
  if val ≤ 0 then default else val

/-- Auxiliary for `toBatches`: `toBatchesAux n xs i` returns the first
`i` elements of `xs` paired with the rest of `xs` batched into groups of
size `n + 1`. -/
def toBatchesAux {α : Type} (n : Nat) : List α → Nat → List α × List (List α)
  | [], _ => ([], [])
  | x :: xs, 0 =>
    let p := toBatchesAux n xs n
    ([], (x :: p.1) :: p.2)
  | x :: xs, i + 1 =>
    let p := toBatchesAux n xs i
    (x :: p.1, p.2)

/-- Modelled from the spec: the engine's batch insert
(gorm `CreateInBatches`) splits the records into consecutive batches of
the given size (the final batch may be smaller) and issues one insert per
batch.  A size of `0` keeps everything in one batch and is never reached
from `CreateMany`, whose batch size is always positive after
`defaultValue`. -/
def toBatches {α : Type} (n : Nat) (l : List α) : List (List α) :=
  match n, l with
  | _, [] => []
  | 0, l => [l]
  | n + 1, x :: xs =>
    let p := toBatchesAux n xs n
    (x :: p.1) :: p.2

/-- The gorm `Store`, shallowly embedded.  `resolve` is the injected
`TransactionScope` (`OpScope.Tx(ctx)` in `getTx`): it yields the
connection or active transaction bound to a request context.
`scopeBuild` is `ScopeBuilder.Build(query.NewParams(params...))`, which
compiles a parameter list into engine scopes.  `toEntity` / `toDTO` are
the converter, `getID` reads a record's ID (`GetID`), `zeroEntity` and
`zeroID` are the Go zero values `*new(Entity)` and `*new(ID)`, and
`batchSize` is the configured `BatchSize` field. -/
structure Store (Entity DTO ID Ctx Conn Scope : Type) where
  resolve : Ctx → Conn
  toEntity : DTO → Entity
  toDTO : Entity → DTO
  getID : DTO → ID
  zeroEntity : Entity
  zeroID : ID
  scopeBuild : List Param → List Scope
  batchSize : Int

variable {Entity DTO ID Ctx Conn Scope : Type}

/-- `Store.Get`: build the scopes, issue `First` on the resolved
connection, and on ANY error (not-found or otherwise) return the
zero-value Entity with a nil error; on success convert the fetched record.
`firstResult` is the engine's outcome for the issued `First` query. -/
def Store.get (s : Store Entity DTO ID Ctx Conn Scope) (ctx : Ctx)
    (params : List Param) (firstResult : Except GormErr DTO) :
    Outcome (Entity × Option Err) (StorageCall DTO Conn Scope) :=
  let scopes := s.scopeBuild params
  let conn := s.resolve ctx
  { result :=
      match firstResult with
      | .error _ => (s.zeroEntity, none)
      | .ok dto => (s.toEntity dto, none)
    calls := [.first conn scopes] }

/-- `Store.List`: build the scopes, issue `Find`, and on error return a
missing slice (`nil` in Go, `none` here) with the storage error; on
success convert every fetched record in order via `converter.ToMany`. -/
def Store.list (s : Store Entity DTO ID Ctx Conn Scope) (ctx : Ctx)
    (params : List Param) (findResult : Except GormErr (List DTO)) :
    Outcome (Option (List Entity) × Option Err) (StorageCall DTO Conn Scope) :=
  let scopes := s.scopeBuild params
  let conn := s.resolve ctx
  { result :=
      match findResult with
      | .error e => (none, some (.storage e))
      | .ok dtos => (some (ToMany dtos s.toEntity), none)
    calls := [.find conn scopes] }

/-- `Store.Count`: build the scopes, issue `Count`, return the count or
propagate the storage error with a zero count. -/
def Store.count (s : Store Entity DTO ID Ctx Conn Scope) (ctx : Ctx)
    (params : List Param) (countResult : Except GormErr Int) :
    Outcome (Int × Option Err) (StorageCall DTO Conn Scope) :=
  let scopes := s.scopeBuild params
  let conn := s.resolve ctx
  { result :=
      match countResult with
      | .error e => (0, some (.storage e))
      | .ok n => (n, none)
    calls := [.count conn scopes none] }

/-- `Store.Exists`: build the scopes, issue `Count` capped at one row
(`Limit(1)`), return whether the count is positive, or propagate the
storage error with `false`. -/
def Store.existsOp (s : Store Entity DTO ID Ctx Conn Scope) (ctx : Ctx)
    (params : List Param) (countResult : Except GormErr Int) :
    Outcome (Bool × Option Err) (StorageCall DTO Conn Scope) :=
  let scopes := s.scopeBuild params
  let conn := s.resolve ctx
  { result :=
      match countResult with
      | .error e => (false, some (.storage e))
      | .ok n => (decide (0 < n), none)
    calls := [.count conn scopes (some 1)] }

/-- `Store.Create`: convert the entity to a record, issue `Create`, and
on success return the ID carried by the inserted record (gorm writes any
generated ID back into the record, modelled by the engine returning the
stored record); on failure return the zero ID with the storage error.
`insertResult` maps the record handed to the engine to the engine's
outcome. -/
def Store.create (s : Store Entity DTO ID Ctx Conn Scope) (ctx : Ctx)
    (entity : Entity) (insertResult : DTO → Except GormErr DTO) :
    Outcome (ID × Option Err) (StorageCall DTO Conn Scope) :=
  let dto := s.toDTO entity
  let conn := s.resolve ctx
  { result :=
      match insertResult dto with
      | .error e => (s.zeroID, some (.storage e))
      | .ok stored => (s.getID stored, none)
    calls := [.insert conn dto] }

/-- `Store.CreateMany`: convert all entities to records and hand them to
the engine's batch insert with batch size `defaultValue s.batchSize 50`;
the engine issues one insert per consecutive batch.  `batchResult` is the
overall engine outcome (`nil` or the first failing batch's error). -/
def Store.createMany (s : Store Entity DTO ID Ctx Conn Scope) (ctx : Ctx)
    (entities : List Entity) (batchResult : Option GormErr) :
    Outcome (Option Err) (StorageCall DTO Conn Scope) :=
  let dtos := ToMany entities s.toDTO
  let batchSize := defaultValue s.batchSize 50
  let conn := s.resolve ctx
  { result := batchResult.map .storage
    calls := (toBatches batchSize.toNat dtos).map (.insertBatch conn) }

/-- `Store.Update`: convert the entity to a record; if the record's ID is
the zero value AND no params were given, fail with the validation error
`id is required` before any storage call; otherwise issue `Save`
(full-record overwrite), scoped by the params when at least one was
given. -/
def Store.update [DecidableEq ID] (s : Store Entity DTO ID Ctx Conn Scope)
    (ctx : Ctx) (entity : Entity) (params : List Param)
    (saveResult : Option GormErr) :
    Outcome (Option Err) (StorageCall DTO Conn Scope) :=
  let dto := s.toDTO entity
  let id := s.getID dto
  if id = s.zeroID ∧ params = [] then
    { result := some (.validation "id is required"), calls := [] }
  else
    let conn := s.resolve ctx
    let scopes := if params = [] then [] else s.scopeBuild params
    { result := saveResult.map .storage, calls := [.save conn scopes dto] }

/-- `Store.PartialUpdate`: convert the entity to a record, build the
scopes from the params (possibly empty), and issue the engine's
non-zero-field update (`Updates`). -/
def Store.partialUpdate (s : Store Entity DTO ID Ctx Conn Scope) (ctx : Ctx)
    (entity : Entity) (params : List Param) (updatesResult : Option GormErr) :
    Outcome (Option Err) (StorageCall DTO Conn Scope) :=
  let dto := s.toDTO entity
  let scopes := s.scopeBuild params
  let conn := s.resolve ctx
  { result := updatesResult.map .storage, calls := [.updates conn scopes dto] }

/-- A sample storage record with an identity column and two data columns,
used to state field-level properties of the engine's partial update. -/
structure UserDTO where
  id : Nat
  name : String
  age : Nat
deriving DecidableEq, Repr

/-- Go zero value of `UserDTO`. -/
def UserDTO.zero : UserDTO := ⟨0, "", 0⟩

/-- Modelled from the spec: the storage engine's partial update
(gorm `Updates` with a struct argument, consumed at the interface
boundary) writes only the non-zero fields of the record to a targeted
row, leaving every other column of that row unchanged. -/
def applyUpdates (patch row : UserDTO) : UserDTO :=
  { id := if patch.id = 0 then row.id else patch.id
    name := if patch.name = "" then row.name else patch.name
    age := if patch.age = 0 then row.age else patch.age }

/-- A concrete store over `Nat` entities, used to evaluate the
operations on explicit inputs. -/
def natStore : Store Nat Nat Nat Nat Nat Param :=
  { resolve := fun ctx => ctx
    toEntity := fun d => d
    toDTO := fun e => e
    getID := fun d => d
    zeroEntity := 0
    zeroID := 0
    scopeBuild := fun ps => ps
    batchSize := 50 }

/-- Characterisation of the auxiliary: it takes the first `i` elements
and batches the rest with size `n + 1`. -/
theorem toBatchesAux_eq {α : Type} (n : Nat) (xs : List α) : ∀ i,
    toBatchesAux n xs i = (xs.take i, toBatches (n + 1) (xs.drop i)) := by
  induction xs with
  | nil => intro i; simp [toBatchesAux, toBatches]
  | cons x xs ih =>
    intro i
    cases i with
    | zero => rfl
    | succ i => simp [toBatchesAux, ih i]

/-- Unfolding lemma: with a positive batch size, the first batch is the
head plus the next `n` elements and the rest is batched recursively. -/
theorem toBatches_succ_cons {α : Type} (n : Nat) (x : α) (xs : List α) :
    toBatches (n + 1) (x :: xs) =
      (x :: xs.take n) :: toBatches (n + 1) (xs.drop n) := by
  show (x :: (toBatchesAux n xs n).1) :: (toBatchesAux n xs n).2 = _
  rw [toBatchesAux_eq]

/-- Flattening the batches recovers the original record list: no record
is dropped, duplicated or reordered by batching. -/
theorem toBatches_flatten {α : Type} :
    ∀ (n : Nat) (l : List α), (toBatches n l).flatten = l
  | _, [] => by simp [toBatches]
  | 0, _ :: _ => by simp [toBatches]
  | n + 1, x :: xs => by
    rw [toBatches_succ_cons, List.flatten_cons,
      toBatches_flatten (n + 1) (xs.drop n)]
    simp [List.take_append_drop]
termination_by _ l => l.length
decreasing_by
  simp only [List.length_cons, List.length_drop]
  omega

/-- With a positive batch size, every batch holds at most `n + 1`
records. -/
theorem toBatches_length_le {α : Type} :
    ∀ (n : Nat) (l : List α), ∀ b ∈ toBatches (n + 1) l, b.length ≤ n + 1
  | _, [] => by simp [toBatches]
  | n, x :: xs => by
    rw [toBatches_succ_cons]
    intro b hb
    rcases List.mem_cons.1 hb with rfl | hb
    · have := List.length_take_le n xs
      simp only [List.length_cons]
      omega
    · exact toBatches_length_le n (xs.drop n) b hb
termination_by _ l => l.length
decreasing_by
  simp only [List.length_cons, List.length_drop]
  omega

/-- A concrete store whose `BatchSize` was left unset (zero value). -/
def unsetStore : Store Nat Nat Nat Nat Nat Param :=
  { natStore with batchSize := 0 }

/-- C1: `Get` does NOT propagate storage errors other than not-found: on
an engine failure that is not `recordNotFound` it still returns the
zero-value Entity with a nil error, evaluated here at a concrete input. -/
theorem get_swallows_storage_error :
    GormErr.other 7 ≠ GormErr.recordNotFound ∧
    (natStore.get 0 [] (Except.error (GormErr.other 7))).result =
      (natStore.zeroEntity, none) :=
  ⟨by decide, rfl⟩

/-- C2: for every store, context and parameter list, when no record
matches (the engine reports `recordNotFound`), `Get` returns the
zero-value Entity together with a nil error. -/
theorem get_notfound_returns_zero_nil (s : Store Entity DTO ID Ctx Conn Scope)
    (ctx : Ctx) (params : List Param) :
    (s.get ctx params (Except.error GormErr.recordNotFound)).result =
      (s.zeroEntity, none) :=
  rfl

/-- C3: for every store, context, parameter list and storage outcome,
`Get`'s error result is nil: every failure of the underlying `First`
query is mapped to the zero-value Entity with a nil error, so `Get` can
never return a non-nil error. -/
theorem get_never_errors (s : Store Entity DTO ID Ctx Conn Scope)
    (ctx : Ctx) (params : List Param) (firstResult : Except GormErr DTO) :
    (s.get ctx params firstResult).result.2 = none := by
  cases firstResult <;> rfl

/-- C4: `Update` with a zero-ID record and no params fails with the
validation error before any storage call; with at least one param it
issues `Save` scoped by the params, regardless of the record's ID. -/
theorem update_requires_id_or_params [DecidableEq ID]
    (s : Store Entity DTO ID Ctx Conn Scope) (ctx : Ctx) (entity : Entity)
    (params : List Param) (saveResult : Option GormErr) :
    (s.getID (s.toDTO entity) = s.zeroID →
      (s.update ctx entity [] saveResult).result =
          some (Err.validation "id is required") ∧
        (s.update ctx entity [] saveResult).calls = []) ∧
    (params ≠ [] →
      s.update ctx entity params saveResult =
        { result := saveResult.map Err.storage
          calls := [.save (s.resolve ctx) (s.scopeBuild params)
                      (s.toDTO entity)] }) := by
  constructor
  · intro h
    simp [Store.update, h]
  · intro h
    simp [Store.update, h]

/-- C4 witness: with the concrete store, `Update` of a zero-ID entity
with no params yields the validation error and no storage call, while
the same entity with a filter param yields a scoped `Save`. -/
theorem update_requires_id_or_params_witness :
    ((natStore.update 0 0 [] none).result =
        some (Err.validation "id is required") ∧
      (natStore.update 0 0 [] none).calls = []) ∧
    natStore.update 0 0 [Param.filter "id" "=" 5] none =
      { result := none
        calls := [.save 0 [Param.filter "id" "=" 5] 0] } := by
  constructor
  · exact (update_requires_id_or_params natStore 0 0 [] none).1 rfl
  · exact (update_requires_id_or_params natStore 0 0
      [Param.filter "id" "=" 5] none).2 (by decide)

/-- C5: `CreateMany` converts all entities and issues one batch insert
per consecutive batch of size `defaultValue batchSize 50`; non-positive
`BatchSize` falls back to 50; flattening the batches recovers the whole
converted list (order preserved, nothing dropped or duplicated); and 120
records at batch size 50 give exactly 3 batches of sizes 50, 50, 20. -/
theorem createMany_batches (s : Store Entity DTO ID Ctx Conn Scope)
    (ctx : Ctx) (entities : List Entity) (batchResult : Option GormErr) :
    (s.createMany ctx entities batchResult).calls =
      (toBatches (defaultValue s.batchSize 50).toNat
        (ToMany entities s.toDTO)).map (.insertBatch (s.resolve ctx)) ∧
    (s.batchSize ≤ 0 → defaultValue s.batchSize 50 = 50) ∧
    (toBatches (defaultValue s.batchSize 50).toNat
        (ToMany entities s.toDTO)).flatten = ToMany entities s.toDTO ∧
    (toBatches 50 (List.range 120)).map List.length = [50, 50, 20] := by
  refine ⟨rfl, ?_, toBatches_flatten _ _, ?_⟩
  · intro h
    simp [defaultValue, h]
  · decide

/-- C5 witness: a store whose `BatchSize` was left at the zero value
falls back to batch size 50. -/
theorem createMany_batches_witness :
    unsetStore.batchSize ≤ 0 ∧ defaultValue unsetStore.batchSize 50 = 50 :=
  ⟨by decide, (createMany_batches unsetStore 0 ([] : List Nat) none).2.1
    (by decide)⟩

/-- C6: `Exists` issues a count capped at 1 row scoped by the params,
returns `true` exactly when the resulting count is positive, and on a
storage error returns `false` together with that error. -/
theorem exists_caps_fetch_and_tests_count
    (s : Store Entity DTO ID Ctx Conn Scope) (ctx : Ctx)
    (params : List Param) (countResult : Except GormErr Int) :
    (s.existsOp ctx params countResult).calls =
      [.count (s.resolve ctx) (s.scopeBuild params) (some 1)] ∧
    (∀ n, countResult = .ok n →
      ((s.existsOp ctx params countResult).result.1 = true ↔ 0 < n) ∧
        (s.existsOp ctx params countResult).result.2 = none) ∧
    (∀ e, countResult = .error e →
      (s.existsOp ctx params countResult).result =
        (false, some (.storage e))) := by
  refine ⟨rfl, ?_, ?_⟩
  · rintro n rfl
    simp [Store.existsOp]
  · rintro e rfl
    simp [Store.existsOp]

/-- C6 witness: with the concrete store, a count of 3 makes `Exists`
return `true`, and an engine failure is returned alongside `false`. -/
theorem exists_caps_fetch_and_tests_count_witness :
    (natStore.existsOp 0 [] (Except.ok 3)).result.1 = true ∧
    (natStore.existsOp 0 [] (Except.error (GormErr.other 2))).result =
      (false, some (Err.storage (GormErr.other 2))) := by
  constructor
  · exact ((exists_caps_fetch_and_tests_count natStore 0 []
      (Except.ok 3)).2.1 3 rfl).1.mpr (by decide)
  · exact (exists_caps_fetch_and_tests_count natStore 0 []
      (Except.error (GormErr.other 2))).2.2 _ rfl

/-- C7: `Create` converts the entity, issues a single insert of the
converted record, on success returns the ID carried by the stored
record, and on failure returns the zero ID with the storage error. -/
theorem create_returns_stored_id (s : Store Entity DTO ID Ctx Conn Scope)
    (ctx : Ctx) (entity : Entity)
    (insertResult : DTO → Except GormErr DTO) :
    (s.create ctx entity insertResult).calls =
      [.insert (s.resolve ctx) (s.toDTO entity)] ∧
    (∀ stored, insertResult (s.toDTO entity) = .ok stored →
      (s.create ctx entity insertResult).result = (s.getID stored, none)) ∧
    (∀ e, insertResult (s.toDTO entity) = .error e →
      (s.create ctx entity insertResult).result =
        (s.zeroID, some (.storage e))) := by
  refine ⟨rfl, ?_, ?_⟩
  · intro stored h
    simp [Store.create, h]
  · intro e h
    simp [Store.create, h]

/-- C7 witness: with the concrete store and an engine assigning ID 8,
`Create` returns 8; a failing insert returns the zero ID and the
error. -/
theorem create_returns_stored_id_witness :
    (natStore.create 0 7 (fun d => Except.ok (d + 1))).result = (8, none) ∧
    (natStore.create 0 7
        (fun _ => Except.error (GormErr.other 3))).result =
      (0, some (Err.storage (GormErr.other 3))) := by
  constructor
  · exact (create_returns_stored_id natStore 0 7
      (fun d => Except.ok (d + 1))).2.1 8 rfl
  · exact (create_returns_stored_id natStore 0 7
      (fun _ => Except.error (GormErr.other 3))).2.2 _ rfl

/-- C8: `List` issues one find scoped by the params; when nothing
matches it returns an empty, non-missing slice with nil error; on
success it returns one converted entity per fetched record in the same
order; a storage error yields a missing slice with that error. -/
theorem list_converts_in_order (s : Store Entity DTO ID Ctx Conn Scope)
    (ctx : Ctx) (params : List Param)
    (findResult : Except GormErr (List DTO)) :
    (s.list ctx params findResult).calls =
      [.find (s.resolve ctx) (s.scopeBuild params)] ∧
    (s.list ctx params (Except.ok [])).result = (some [], none) ∧
    (∀ dtos, findResult = .ok dtos →
      (s.list ctx params findResult).result =
          (some (ToMany dtos s.toEntity), none) ∧
        (ToMany dtos s.toEntity).length = dtos.length ∧
        ∀ i (hi : i < dtos.length),
          (ToMany dtos s.toEntity).get ⟨i, by simpa [ToMany] using hi⟩ =
            s.toEntity (dtos.get ⟨i, hi⟩)) ∧
    (∀ e, findResult = .error e →
      (s.list ctx params findResult).result =
        (none, some (.storage e))) := by
  refine ⟨rfl, rfl, ?_, ?_⟩
  · rintro dtos rfl
    refine ⟨rfl, by simp [ToMany], ?_⟩
    intro i hi
    simp [ToMany]
  · rintro e rfl
    rfl

/-- C8 witness: with the concrete store, an empty match gives an empty
slice with nil error and two records convert in order. -/
theorem list_converts_in_order_witness :
    (natStore.list 0 [] (Except.ok [])).result = (some [], none) ∧
    (natStore.list 0 [] (Except.ok [4, 5])).result =
      (some [4, 5], none) := by
  constructor
  · exact (list_converts_in_order natStore 0 [] (Except.ok [])).2.1
  · exact ((list_converts_in_order natStore 0 []
      (Except.ok [4, 5])).2.2.1 [4, 5] rfl).1

/-- C9: `PartialUpdate` converts the entity, applies the scopes built
from the params (possibly empty), and hands the record to the engine's
non-zero-field update; that update writes only the record's non-zero
fields, leaving every other column of a targeted row unchanged. -/
theorem partialUpdate_writes_nonzero_fields
    (s : Store Entity DTO ID Ctx Conn Scope) (ctx : Ctx) (entity : Entity)
    (params : List Param) (updatesResult : Option GormErr) :
    (s.partialUpdate ctx entity params updatesResult).calls =
      [.updates (s.resolve ctx) (s.scopeBuild params) (s.toDTO entity)] ∧
    (∀ patch row : UserDTO,
      (patch.id = 0 → (applyUpdates patch row).id = row.id) ∧
      (patch.name = "" → (applyUpdates patch row).name = row.name) ∧
      (patch.age = 0 → (applyUpdates patch row).age = row.age) ∧
      (patch.id = 0 → patch.age = 0 → patch.name ≠ "" →
        applyUpdates patch row = { row with name := patch.name })) := by
  refine ⟨rfl, ?_⟩
  intro patch row
  refine ⟨?_, ?_, ?_, ?_⟩
  · intro h; simp [applyUpdates, h]
  · intro h; simp [applyUpdates, h]
  · intro h; simp [applyUpdates, h]
  · intro h1 h2 h3
    simp [applyUpdates, h1, h2, h3]

/-- C9 witness: a record whose only non-zero field is `name` rewrites
only the `name` column of the targeted row. -/
theorem partialUpdate_writes_nonzero_fields_witness :
    applyUpdates ⟨0, "alice", 0⟩ ⟨7, "bob", 33⟩ = ⟨7, "alice", 33⟩ := by
  exact ((partialUpdate_writes_nonzero_fields natStore 0 0 [] none).2
    ⟨0, "alice", 0⟩ ⟨7, "bob", 33⟩).2.2.2 rfl rfl (by decide)

/-- C10: every Store operation executes all of its storage calls on the
connection resolved from the injected transaction scope for the request
context, and none of them issues a begin / commit / rollback call. -/
theorem store_ops_transaction_scoped [DecidableEq ID]
    (s : Store Entity DTO ID Ctx Conn Scope) (ctx : Ctx)
    (params : List Param) (entity : Entity) (entities : List Entity)
    (firstResult : Except GormErr DTO)
    (findResult : Except GormErr (List DTO))
    (countResult capResult : Except GormErr Int)
    (insertResult : DTO → Except GormErr DTO)
    (batchResult saveResult updatesResult : Option GormErr) :
    (∀ c ∈ (s.get ctx params firstResult).calls,
      c.conn = s.resolve ctx ∧ c.isTxControl = false) ∧
    (∀ c ∈ (s.list ctx params findResult).calls,
      c.conn = s.resolve ctx ∧ c.isTxControl = false) ∧
    (∀ c ∈ (s.count ctx params countResult).calls,
      c.conn = s.resolve ctx ∧ c.isTxControl = false) ∧
    (∀ c ∈ (s.existsOp ctx params capResult).calls,
      c.conn = s.resolve ctx ∧ c.isTxControl = false) ∧
    (∀ c ∈ (s.create ctx entity insertResult).calls,
      c.conn = s.resolve ctx ∧ c.isTxControl = false) ∧
    (∀ c ∈ (s.createMany ctx entities batchResult).calls,
      c.conn = s.resolve ctx ∧ c.isTxControl = false) ∧
    (∀ c ∈ (s.update ctx entity params saveResult).calls,
      c.conn = s.resolve ctx ∧ c.isTxControl = false) ∧
    (∀ c ∈ (s.partialUpdate ctx entity params updatesResult).calls,
      c.conn = s.resolve ctx ∧ c.isTxControl = false) := by
  refine ⟨?_, ?_, ?_, ?_, ?_, ?_, ?_, ?_⟩
  · intro c hc
    simp only [Store.get, List.mem_singleton] at hc
    subst hc; exact ⟨rfl, rfl⟩
  · intro c hc
    simp only [Store.list, List.mem_singleton] at hc
    subst hc; exact ⟨rfl, rfl⟩
  · intro c hc
    simp only [Store.count, List.mem_singleton] at hc
    subst hc; exact ⟨rfl, rfl⟩
  · intro c hc
    simp only [Store.existsOp, List.mem_singleton] at hc
    subst hc; exact ⟨rfl, rfl⟩
  · intro c hc
    simp only [Store.create, List.mem_singleton] at hc
    subst hc; exact ⟨rfl, rfl⟩
  · intro c hc
    simp only [Store.createMany, List.mem_map] at hc
    obtain ⟨b, _, rfl⟩ := hc
    exact ⟨rfl, rfl⟩
  · intro c hc
    rw [Store.update] at hc
    split at hc
    · simp at hc
    · simp only [List.mem_singleton] at hc
      subst hc; exact ⟨rfl, rfl⟩
  · intro c hc
    simp only [Store.partialUpdate, List.mem_singleton] at hc
    subst hc; exact ⟨rfl, rfl⟩

/-- C10 witness: the call issued by `Get` on the concrete store runs on
the resolved connection and is not transaction control. -/
theorem store_ops_transaction_scoped_witness :
    (StorageCall.first 0 [] : StorageCall Nat Nat Param).conn =
        natStore.resolve 0 ∧
    (StorageCall.first 0 [] : StorageCall Nat Nat Param).isTxControl =
        false := by
  exact (store_ops_transaction_scoped natStore 0 [] 0 [] (Except.ok 0)
    (Except.ok []) (Except.ok 0) (Except.ok 0) (fun d => Except.ok d)
    none none none).1 (StorageCall.first 0 []) (by simp [Store.get, natStore])

end GoFlexStore
